import Mathlib

/-!
Verification of the house-price inference pipeline of `src/app.py` (Flask app
serving a Ridge regression over 8 standardized features).

The embedding models the `/predict` handler (`predict`, lines 47-95), the
artifact loader (`load_model`, lines 14-30, and the startup `try/except`,
lines 33-38) and the `/api/feature-ranges` endpoint (`get_feature_ranges`,
lines 98-118).  Real arithmetic is modelled exactly over `ℚ`; every concrete
scenario evaluated below involves only values that are exact in binary64, so
the rational model agrees with the double-precision execution.  Python's
`round(x, n)` and the `,.0f` format both round half to even; `rne` models
that.  Float special values (NaN/infinity), which matter only for the result
formatter, are modelled separately by `PyFloat`.
-/

namespace HousePrice

/-- A JSON value arriving in the request body: a number or a string (the two
shapes the claims exercise). -/
inductive Value where
  | num (q : ℚ)
  | str (s : String)
deriving DecidableEq

/-- The parsed JSON object `data = request.get_json()`: an association list of
feature names to values; lookup ignores order, like a Python dict. -/
abbrev InputData := List (String × Value)

/-- The fixed feature order of `src/app.py` lines 62-69 (California housing
schema). -/
def featureNames : List String :=
  ["MedInc", "HouseAge", "AveRooms", "AveBedrms",
   "Population", "AveOccup", "Latitude", "Longitude"]

/-- Value of a decimal digit string, most significant first. -/
def digitsVal (cs : List Char) : ℕ :=
  cs.foldl (fun n c => 10 * n + (c.toNat - 48)) 0

/-- Models Python `float(s)` on a string: an optional sign, then a plain
decimal literal (digits, optionally with one decimal point; `"3."` and
`".5"` are accepted, `""`, `"."` and non-numeric text are not).  Exponents
and the `inf`/`nan` spellings accepted by CPython are outside the inputs the
claims exercise and are not modelled. -/
def parseDecimal (s : String) : Option ℚ :=
  let cs := s.toList
  let signRest : ℚ × List Char :=
    match cs with
    | '-' :: r => (-1, r)
    | '+' :: r => (1, r)
    | r => (1, r)
  let sign := signRest.1
  let rest := signRest.2
  let intPart := rest.takeWhile Char.isDigit
  let afterInt := rest.dropWhile Char.isDigit
  match afterInt with
  | [] => if intPart.isEmpty then none else some (sign * digitsVal intPart)
  | '.' :: fracPart =>
    if fracPart.all Char.isDigit && !(intPart.isEmpty && fracPart.isEmpty) then
      some (sign * ((digitsVal intPart : ℚ) + (digitsVal fracPart : ℚ) / 10 ^ fracPart.length))
    else none
  | _ => none

/-- Models the Python builtin `float(v)` applied to a JSON value, as in
`float(data.get(name, 0))`: numbers pass through, strings are parsed, and a
non-numeric string raises `ValueError("could not convert string to float: ...")`,
modelled as the error message the handler's `except` clause stringifies. -/
def pyFloat (v : Value) : Except String ℚ :=
  match v with
  | .num q => .ok q
  | .str s =>
    match parseDecimal s with
    | some q => .ok q
    | none => .error ("could not convert string to float: '" ++ s ++ "'")

/-- Models `float(data.get(name, 0))` (`src/app.py` lines 62-69): a missing
key silently defaults to `0`. -/
def coerceFeature (data : InputData) (name : String) : Except String ℚ :=
  pyFloat ((List.lookup name data).getD (.num 0))

/-- Sequential left-to-right evaluation of the per-feature coercions, the
first raised `ValueError` aborting the rest — exactly how Python evaluates
the eight `float(...)` calls inside the `np.array([[...]])` literal. -/
def mapE (f : String → Except String ℚ) : List String → Except String (List ℚ)
  | [] => .ok []
  | n :: rest =>
    match f n with
    | .error e => .error e
    | .ok q =>
      match mapE f rest with
      | .error e => .error e
      | .ok qs => .ok (q :: qs)

/-- The feature-vector builder of `src/app.py` lines 62-69: the eight features
in schema order, each `float(data.get(name, 0))`. -/
def buildFeatures (data : InputData) : Except String (List ℚ) :=
  mapE (coerceFeature data) featureNames

/-- The deserialized `scaler.pkl`: a fitted `StandardScaler` carrying the
per-feature `mean_` and `scale_` sequences. -/
structure Scaler where
  mean : List ℚ
  scale : List ℚ
deriving DecidableEq

/-- The deserialized `model.pkl`: a fitted `Ridge` model carrying `coef_`
and `intercept_`. -/
structure Model where
  coef : List ℚ
  intercept : ℚ
deriving DecidableEq

/-- Modelled from the spec: `scaler.transform` as invoked at `src/app.py`
line 72 is sklearn's `StandardScaler.transform`, whose code is not part of
this repository; per the spec it computes, for each index i,
`(vector[i] - mean[i]) / scale[i]`. -/
def standardize (xs mean scale : List ℚ) : List ℚ :=
  List.zipWith (fun y s => y / s) (List.zipWith (fun x m => x - m) xs mean) scale

/-- Modelled from the spec: the conceptual inverse transform
(`x * scale + mean` per index, sklearn's `StandardScaler.inverse_transform`,
not part of this repository), used to state the round-trip law. -/
def destandardize (zs mean scale : List ℚ) : List ℚ :=
  List.zipWith (fun y m => y + m) (List.zipWith (fun z s => z * s) zs scale) mean

/-- Dot product of two equal-length lists, as in `Ridge.predict`. -/
def dotProduct (xs ws : List ℚ) : ℚ :=
  (List.zipWith (fun x w => x * w) xs ws).sum

/-- Round half to even to an integer, as Python's `round` and the `f`-format
do (banker's rounding). -/
def rne (q : ℚ) : ℤ :=
  if q - ⌊q⌋ = 1 / 2 then (if ⌊q⌋ % 2 = 0 then ⌊q⌋ else ⌊q⌋ + 1) else round q

/-- Models Python `round(x, n)` for nonnegative `n`: round `x * 10^n` half to
even, then scale back. -/
def pyRound (q : ℚ) (n : ℕ) : ℚ :=
  (rne (q * 10 ^ n) : ℚ) / 10 ^ n

/-- Helper for thousands separators: on a reversed digit list, insert a comma
after every third digit. -/
def groupRev : List Char → List Char
  | a :: b :: c :: d :: rest => a :: b :: c :: ',' :: groupRev (d :: rest)
  | l => l

/-- Decimal rendering of a natural number with thousands separators. -/
def commaSep (n : ℕ) : String :=
  String.mk ((groupRev (Nat.toDigits 10 n).reverse).reverse)

/-- Models the f-string `f"${price_usd:,.0f}"` (`src/app.py` line 87) for a
finite value: a dollar sign, then the value rounded half-even to an integer
with thousands separators. -/
def fmtUSD (q : ℚ) : String :=
  let n := rne q
  "$" ++ (if n < 0 then "-" else "") ++ commaSep n.natAbs

/-- The JSON body the `/predict` handler returns, together with the HTTP
status: either the `success: True` payload (`price_100k`, `price_usd`,
`price_formatted`) with status 200, or a `success: False` error body with
its status (500 when the model is not loaded, 400 from the `except` clause). -/
inductive PredictResponse where
  | success (price_100k price_usd : ℚ) (price_formatted : String)
  | failure (error : String) (status : ℕ)
deriving DecidableEq

/-- The `/predict` handler, `src/app.py` lines 47-95.  `state` is the
process-wide `(model, scaler)` pair, `none` when loading failed at startup.
The handler checks for the degraded state (500), builds the feature vector
with silent zero defaults, standardizes, evaluates the linear model, and
formats; any raised `ValueError` from coercion is caught and returned as a
400 with `str(e)`. -/
def predict (state : Option (Model × Scaler)) (data : InputData) : PredictResponse :=
  match state with
  | none => .failure "Model not loaded. Please train the model first." 500
  | some (model, scaler) =>
    match buildFeatures data with
    | .error e => .failure e 400
    | .ok features =>
      let features_scaled := standardize features scaler.mean scaler.scale
      let prediction := dotProduct features_scaled model.coef + model.intercept
      let price_100k := prediction
      let price_usd := prediction * 100000
      .success (pyRound price_100k 2) (pyRound price_usd 0) (fmtUSD price_usd)

/-- The single failure `load_model` can raise: `FileNotFoundError` (the
reference realization of the spec's `ArtifactMissing`). -/
inductive LoadError where
  | fileNotFound (msg : String)
deriving DecidableEq

/-- The artifact loader, `src/app.py` lines 14-30: it checks only that both
files exist (raising `FileNotFoundError` otherwise) and then unpickles them;
the deserialized contents are passed in as `model` and `scaler` and are not
validated in any way. -/
def load_model (model_exists scaler_exists : Bool) (model : Model) (scaler : Scaler) :
    Except LoadError (Model × Scaler) :=
  if !model_exists || !scaler_exists then
    .error (.fileNotFound
      "Model files not found. Please run 'python model/train_model.py' first.")
  else
    .ok (model, scaler)

/-- The startup `try/except` of `src/app.py` lines 33-38: a successful load
installs the pair, a `FileNotFoundError` leaves `model, scaler = None, None`. -/
def startupState (r : Except LoadError (Model × Scaler)) : Option (Model × Scaler) :=
  match r with
  | .ok ms => some ms
  | .error _ => none

/-- One entry of the `/api/feature-ranges` payload, `src/app.py` lines 98-118. -/
structure FeatureRange where
  min : ℚ
  max : ℚ
  default : ℚ
  step : ℚ
  label : String
  unit : String
deriving DecidableEq

/-- The `/api/feature-ranges` endpoint, `src/app.py` lines 98-118, verbatim. -/
def get_feature_ranges : List (String × FeatureRange) :=
  [("MedInc", ⟨0.5, 15, 3.5, 0.1, "Median Income", "$10,000s"⟩),
   ("HouseAge", ⟨1, 52, 25, 1, "House Age", "years"⟩),
   ("AveRooms", ⟨1, 10, 5, 0.1, "Average Rooms", "rooms"⟩),
   ("AveBedrms", ⟨0.5, 5, 1, 0.1, "Average Bedrooms", "rooms"⟩),
   ("Population", ⟨100, 10000, 1500, 100, "Population", "people"⟩),
   ("AveOccup", ⟨1, 10, 3, 0.1, "Average Occupancy", "people"⟩),
   ("Latitude", ⟨32.5, 42, 35.5, 0.1, "Latitude", "°N"⟩),
   ("Longitude", ⟨-124.5, -114, -119.5, 0.1, "Longitude", "°W"⟩)]

/-- The identity scaler of the spec's concrete scenario: `mean=[0]*8,
scale=[1]*8`. -/
def identityScaler : Scaler :=
  ⟨[0, 0, 0, 0, 0, 0, 0, 0], [1, 1, 1, 1, 1, 1, 1, 1]⟩

/-- The model of the spec's concrete scenario: `weights=[1,0,0,0,0,0,0,0],
intercept=0`. -/
def medIncModel : Model :=
  ⟨[1, 0, 0, 0, 0, 0, 0, 0], 0⟩

/-- An input mapping that explicitly supplies every feature's declared
default value (0 in the reference schema of `data.get(name, 0)`). -/
def allDefaultsInput : InputData :=
  [("MedInc", .num 0), ("HouseAge", .num 0), ("AveRooms", .num 0), ("AveBedrms", .num 0),
   ("Population", .num 0), ("AveOccup", .num 0), ("Latitude", .num 0), ("Longitude", .num 0)]

/-- A corrupt scaler whose first `scale` entry is 0. -/
def zeroScaleScaler : Scaler :=
  ⟨[0, 0, 0, 0, 0, 0, 0, 0], [0, 1, 1, 1, 1, 1, 1, 1]⟩

/-- The input mapping supplying every feature's default as advertised by the
`/api/feature-ranges` endpoint. -/
def uiDefaultInput : InputData :=
  get_feature_ranges.map (fun p => (p.1, Value.num p.2.default))

/-- An IEEE double as the result formatter sees it: a finite value (exact
over `ℚ`), NaN, or a signed infinity. -/
inductive PyFloat where
  | finite (q : ℚ)
  | nan
  | inf
  | ninf
deriving DecidableEq

/-- Multiplication of a double by a finite rational constant, modelling
`prediction * 100000` (`src/app.py` line 81): NaN propagates, an infinity
keeps or flips its sign with the constant's sign and becomes NaN at 0. -/
def pyMul (p : PyFloat) (c : ℚ) : PyFloat :=
  match p with
  | .finite q => .finite (q * c)
  | .nan => .nan
  | .inf => if 0 < c then .inf else if c < 0 then .ninf else .nan
  | .ninf => if 0 < c then .ninf else if c < 0 then .inf else .nan

/-- Python `round(x, n)` on a double: a non-finite value is returned
unchanged (no exception is raised when `ndigits` is given). -/
def pyRoundF (p : PyFloat) (n : ℕ) : PyFloat :=
  match p with
  | .finite q => .finite (pyRound q n)
  | x => x

/-- The f-string `f"${price_usd:,.0f}"` on a double: Python formats the
special values as the strings `nan`, `inf` and `-inf`. -/
def fmtUSDF (p : PyFloat) : String :=
  match p with
  | .finite q => fmtUSD q
  | .nan => "$nan"
  | .inf => "$inf"
  | .ninf => "$-inf"

/-- The `prediction` dictionary of the success payload, at double precision. -/
structure FormatResult where
  price_100k : PyFloat
  price_usd : PyFloat
  price_formatted : String
deriving DecidableEq

/-- The result-formatting tail of the handler (`src/app.py` lines 78-89) over
doubles: `price_100k = prediction`, `price_usd = prediction * 100000`, then
`round(price_100k, 2)`, `round(price_usd, 0)` and the `,.0f` format.  It is
total: the source has no finiteness check and no failure path here. -/
def formatPrediction (prediction : PyFloat) : FormatResult :=
  let price_100k := prediction
  let price_usd := pyMul prediction 100000
  ⟨pyRoundF price_100k 2, pyRoundF price_usd 0, fmtUSDF price_usd⟩

/-- Helper: `mapE` fails as soon as one listed name's coercion fails. -/
theorem mapE_error_of_mem {f : String → Except String ℚ} {l : List String} {n : String}
    (hn : n ∈ l) (he : ∀ q, f n ≠ .ok q) : ∃ e, mapE f l = .error e := by
  induction l with
  | nil => exact absurd hn (List.not_mem_nil n)
  | cons a rest ih =>
    rcases List.mem_cons.mp hn with h | h
    · subst h
      cases hfa : f n with
      | error e => exact ⟨e, by simp [mapE, hfa]⟩
      | ok q => exact absurd hfa (he q)
    · cases hfa : f a with
      | error e => exact ⟨e, by simp [mapE, hfa]⟩
      | ok q =>
        obtain ⟨e, hrest⟩ := ih h
        exact ⟨e, by simp [mapE, hfa, hrest]⟩

/-- Helper: `mapE` only looks at the function's value on the listed names. -/
theorem mapE_congr {f g : String → Except String ℚ} {l : List String}
    (h : ∀ n ∈ l, f n = g n) : mapE f l = mapE g l := by
  induction l with
  | nil => rfl
  | cons a rest ih =>
    have ha := h a (List.mem_cons_self a rest)
    have hr := ih (fun n hn => h n (List.mem_cons_of_mem a hn))
    simp [mapE, ha, hr]

/-- C1: with mean=[0]*8, scale=[1]*8, weights=[1,0,0,0,0,0,0,0], intercept=0,
the input `{MedInc: 3.5}` (all other features defaulted) yields raw
prediction 3.5, priceCurrency 350000 and display string "$350,000". -/
theorem c1_concrete_scenario :
    predict (some (medIncModel, identityScaler)) [("MedInc", .num 3.5)] =
      .success 3.5 350000 "$350,000" := by
  with_unfolding_all rfl

/-- C2: for every loaded model and scaler, prediction on the empty input
mapping does not fail (it returns a success payload) and equals prediction
on the mapping that explicitly supplies every feature's declared default
value 0 — a missing key is silently defaulted, never an error. -/
theorem c2_empty_input_equals_defaults (model : Model) (scaler : Scaler) :
    predict (some (model, scaler)) [] = predict (some (model, scaler)) allDefaultsInput ∧
    ∃ p u f, predict (some (model, scaler)) [] = .success p u f := by
  exact ⟨rfl, _, _, _, rfl⟩

/-- C3 counterexample: with both artifact files present and a scaler whose
first scale entry is 0, `load_model` succeeds — it does not fail with any
error, in particular not with an ArtifactCorrupt condition, refuting the
claim that a non-positive scale entry makes loading fail. -/
theorem c3_counterexample :
    load_model true true medIncModel zeroScaleScaler = .ok (medIncModel, zeroScaleScaler) := by
  rfl

/-- C3 amended: `load_model` validates file existence only; with both files
present it succeeds for arbitrary artifact contents (no scale check), and
startup installs the pair, so a zero or negative scale entry does reach
prediction time. -/
theorem c3_amended_no_scale_validation (model : Model) (scaler : Scaler) :
    load_model true true model scaler = .ok (model, scaler) ∧
    startupState (load_model true true model scaler) = some (model, scaler) := by
  exact ⟨rfl, rfl⟩

/-- C4 counterexample: on input `{MedInc: "abc"}` the handler returns the
stringified `ValueError` with status 400; the message does not mention the
feature name `MedInc`, so no typed InvalidFeatureValue naming the offending
feature is produced, refuting the claim as stated. -/
theorem c4_counterexample :
    predict (some (medIncModel, identityScaler)) [("MedInc", .str "abc")] =
      .failure "could not convert string to float: 'abc'" 400 ∧
    ¬ ("MedInc".toList <:+: "could not convert string to float: 'abc'".toList) := by
  exact ⟨rfl, by decide⟩

/-- C4 amended: whenever some feature name carries a value that cannot be
coerced to a number, the handler does not crash: the raised `ValueError` is
caught and returned as a generic 400 failure whose message is the raw
coercion error, not a typed InvalidFeatureValue naming the feature. -/
theorem c4_amended_generic_400 (model : Model) (scaler : Scaler) (data : InputData)
    (name bad : String) (hmem : name ∈ featureNames)
    (hlook : List.lookup name data = some (.str bad))
    (hparse : parseDecimal bad = none) :
    ∃ msg, predict (some (model, scaler)) data = .failure msg 400 := by
  have herr : ∀ q, coerceFeature data name ≠ .ok q := by
    intro q
    simp [coerceFeature, hlook, pyFloat, hparse]
  obtain ⟨e, he⟩ := mapE_error_of_mem hmem herr
  have hb : buildFeatures data = .error e := he
  exact ⟨e, by simp [predict, hb]⟩

/-- C4 amended witness: the concrete input `{MedInc: "abc"}` discharges the
hypotheses of the amended theorem. -/
theorem c4_amended_generic_400_witness :
    ∃ msg, predict (some (medIncModel, identityScaler)) [("MedInc", .str "abc")] =
      .failure msg 400 :=
  c4_amended_generic_400 medIncModel identityScaler [("MedInc", .str "abc")] "MedInc" "abc"
    (by decide) (by decide) (by decide)

/-- C5: after artifact loading has failed, the process state is `None, None`
and every prediction request, whatever its body, is rejected with the
ModelUnavailable condition (the 500 response "Model not loaded. Please train
the model first.") — no prediction is computed in the degraded state. -/
theorem c5_degraded_mode_rejects (e : LoadError) (data : InputData) :
    predict (startupState (.error e)) data =
      .failure "Model not loaded. Please train the model first." 500 := by
  rfl

/-- C6: whenever exactly one of the two artifact files is present,
`load_model` fails with the `FileNotFoundError` that realizes the spec's
ArtifactMissing condition. -/
theorem c6_one_file_missing (model_exists scaler_exists : Bool)
    (model : Model) (scaler : Scaler) (h : model_exists ≠ scaler_exists) :
    load_model model_exists scaler_exists model scaler =
      .error (.fileNotFound
        "Model files not found. Please run 'python model/train_model.py' first.") := by
  cases model_exists <;> cases scaler_exists <;> simp_all [load_model]

/-- C6 witness: the model file present, the scaler file absent. -/
theorem c6_one_file_missing_witness :
    load_model true false medIncModel identityScaler =
      .error (.fileNotFound
        "Model files not found. Please run 'python model/train_model.py' first.") :=
  c6_one_file_missing true false medIncModel identityScaler (by decide)

/-- C7: the handler is a deterministic function of the loaded artifacts and
the input mapping's contents: two input mappings that agree as key-value
lookups on every feature name (in particular, two identical mappings)
produce identical responses. -/
theorem c7_deterministic (model : Model) (scaler : Scaler) (d₁ d₂ : InputData)
    (h : ∀ name ∈ featureNames, List.lookup name d₁ = List.lookup name d₂) :
    predict (some (model, scaler)) d₁ = predict (some (model, scaler)) d₂ := by
  have hb : buildFeatures d₁ = buildFeatures d₂ :=
    mapE_congr (fun n hn => by simp [coerceFeature, h n hn])
  simp only [predict]
  rw [hb]

/-- C7 witness: two identical-content inputs (here with the two keys in
different orders) produce the same response. -/
theorem c7_deterministic_witness :
    predict (some (medIncModel, identityScaler))
        [("MedInc", .num 3.5), ("HouseAge", .num 25)] =
      predict (some (medIncModel, identityScaler))
        [("HouseAge", .num 25), ("MedInc", .num 3.5)] :=
  c7_deterministic medIncModel identityScaler
    [("MedInc", .num 3.5), ("HouseAge", .num 25)]
    [("HouseAge", .num 25), ("MedInc", .num 3.5)] (by with_unfolding_all decide)

/-- C8: for every scaler with all scale entries positive and every feature
vector of matching length, standardizing (`(x - mean) / scale`) and then
applying the inverse transform (`z * scale + mean`) recovers the original
vector exactly over the rationals. -/
theorem c8_standardize_roundtrip (xs mean scale : List ℚ)
    (hpos : ∀ s ∈ scale, 0 < s)
    (h₁ : xs.length = mean.length) (h₂ : mean.length = scale.length) :
    destandardize (standardize xs mean scale) mean scale = xs := by
  induction xs generalizing mean scale with
  | nil => rfl
  | cons x xs ih =>
    cases mean with
    | nil => simp at h₁
    | cons m mean =>
      cases scale with
      | nil => simp at h₂
      | cons s scale =>
        have hs : s ≠ 0 := ne_of_gt (hpos s (List.mem_cons_self s scale))
        have hx : (x - m) / s * s + m = x := by
          rw [div_mul_cancel₀ _ hs, sub_add_cancel]
        simp only [standardize, destandardize, List.zipWith_cons_cons] at ih ⊢
        rw [hx, ih mean scale (fun t ht => hpos t (List.mem_cons_of_mem s ht))
          (by simpa using h₁) (by simpa using h₂)]

/-- C8 witness: a concrete vector, mean and positive scale discharge the
hypotheses of the round-trip law. -/
theorem c8_standardize_roundtrip_witness :
    destandardize
        (standardize [1, 2, 3, 4, 5, 6, 7, 8] [5, 5, 5, 5, 5, 5, 5, 5]
          [2, 2, 2, 2, 2, 2, 2, 2])
        [5, 5, 5, 5, 5, 5, 5, 5] [2, 2, 2, 2, 2, 2, 2, 2] =
      [1, 2, 3, 4, 5, 6, 7, 8] :=
  c8_standardize_roundtrip [1, 2, 3, 4, 5, 6, 7, 8] [5, 5, 5, 5, 5, 5, 5, 5]
    [2, 2, 2, 2, 2, 2, 2, 2] (by norm_num) rfl rfl

/-- C9 counterexample: the result formatter, applied to a NaN raw
prediction, returns a formatted result — payload `price_100k = nan`,
`price_usd = nan`, display "$nan" — rather than failing, refuting the claim
that non-finite predictions fail with InvalidPrediction. -/
theorem c9_counterexample :
    formatPrediction .nan = ⟨.nan, .nan, "$nan"⟩ := by
  rfl

/-- C9 amended: the reference formatter is total and never fails: a NaN or
infinite raw prediction is passed through `round` unchanged and formatted
verbatim ("$nan", "$inf", "$-inf") instead of being rejected, and every
finite raw prediction produces the rounded and comma-formatted payload. -/
theorem c9_formatter_total :
    formatPrediction .nan = ⟨.nan, .nan, "$nan"⟩ ∧
    formatPrediction .inf = ⟨.inf, .inf, "$inf"⟩ ∧
    formatPrediction .ninf = ⟨.ninf, .ninf, "$-inf"⟩ ∧
    ∀ q : ℚ, formatPrediction (.finite q) =
      ⟨.finite (pyRound q 2), .finite (pyRound (q * 100000) 0), fmtUSD (q * 100000)⟩ := by
  refine ⟨rfl, ?_, ?_, fun q => rfl⟩ <;> with_unfolding_all rfl

/-- C10: the prediction path substitutes 0 for every missing feature
(building the all-zero vector from the empty input), while the
feature-ranges endpoint advertises a nonzero default for every feature; with
the concrete scenario artifacts the two default schemas give different
predictions. -/
theorem c10_defaults_disagree :
    buildFeatures [] = .ok [0, 0, 0, 0, 0, 0, 0, 0] ∧
    (get_feature_ranges.all fun p => p.2.default != 0) = true ∧
    predict (some (medIncModel, identityScaler)) [] ≠
      predict (some (medIncModel, identityScaler)) uiDefaultInput := by
  refine ⟨rfl, by with_unfolding_all rfl, ?_⟩
  have h₁ : predict (some (medIncModel, identityScaler)) [] = .success 0 0 "$0" := by
    with_unfolding_all rfl
  have h₂ : predict (some (medIncModel, identityScaler)) uiDefaultInput =
      .success 3.5 350000 "$350,000" := by
    with_unfolding_all rfl
  rw [h₁, h₂]
  simp only [ne_eq, PredictResponse.success.injEq, not_and]
  intro h0
  norm_num at h0

end HousePrice
